import Mathlib

/-!
Shallow embedding of the Vector-Replay repository (src/driving_info_speed.py
and src/Python_CANoe.py) for checking its natural-language specification.

Modelling conventions:
* A log line that the Python code has already passed through `line.split()`
  is a `List String` of whitespace-separated tokens; an input file is a
  `List (List String)` of such token lists (the first three entries are the
  header lines that `parse_file` skips).
* Python numbers are modelled exactly: `float` values by `ℚ` (the rational
  a decimal token denotes), `int` values by `ℤ`/`ℕ`.  `int(x)` on a number
  truncates toward zero (`pyInt`).
* Token-to-number conversions mirror `float(tok)`, `int(tok)` and
  `int(tok, 16)` on the token shapes the log format uses: nonnegative
  decimal(-point) literals and plain hexadecimal digit strings; a token any
  of them rejects is where Python raises, modelled by `Option.none`, which
  aborts the whole parse just as the uncaught exception would.
* The mutable context dictionary of `parse_file` is the structure `Context`;
  keys that Python adds on first assignment (`time`, `speed`, ...) are plain
  fields initialised to 0 — every read of such a field in the executed code
  is preceded by a write, so the defaults are unobservable.
-/

/-- Numeric value of a decimal digit character. -/
def digVal (c : Char) : ℕ := c.toNat - 48

/-- Value of a string of decimal digits (helper for token parsing). -/
def natOfDigits (cs : List Char) : ℕ := cs.foldl (fun n c => n * 10 + digVal c) 0

/-- `int(tok)` on a token: nonnegative decimal integer tokens accepted,
anything else raises (`none`). -/
def pyNat (s : String) : Option ℕ :=
  match s.data with
  | [] => none
  | cs => if cs.all Char.isDigit then some (natOfDigits cs) else none

/-- Numeric value of a hexadecimal digit character, `none` otherwise. -/
def hexVal (c : Char) : Option ℕ :=
  if c.isDigit then some (digVal c)
  else if 'a' ≤ c ∧ c ≤ 'f' then some (c.toNat - 97 + 10)
  else if 'A' ≤ c ∧ c ≤ 'F' then some (c.toNat - 65 + 10)
  else none

/-- Accumulator loop for hexadecimal token parsing. -/
def hexAux (n : ℕ) : List Char → Option ℕ
  | [] => some n
  | c :: cs =>
    match hexVal c with
    | none => none
    | some v => hexAux (n * 16 + v) cs

/-- `int(tok, 16)`: a nonempty string of hexadecimal digits; anything else
raises (`none`). -/
def pyHex (s : String) : Option ℕ :=
  match s.data with
  | [] => none
  | cs => hexAux 0 cs

/-- Decomposition of a nonnegative decimal float token into
`(whole digits value, fraction digits value, number of fraction digits)`;
`none` where Python `float(tok)` raises.  Pure character/ℕ computation so
that concrete tokens evaluate by `decide`. -/
def floatParts (s : String) : Option (ℕ × ℕ × ℕ) :=
  let cs := s.data
  let w := cs.takeWhile (fun c => c ≠ '.')
  let r := cs.dropWhile (fun c => c ≠ '.')
  match r with
  | [] => if cs ≠ [] ∧ cs.all Char.isDigit then some (natOfDigits cs, 0, 0) else none
  | _ :: f =>
    if (w ≠ [] ∨ f ≠ []) ∧ w.all Char.isDigit ∧ f.all Char.isDigit then
      some (natOfDigits w, natOfDigits f, f.length)
    else none

/-- `float(tok)` on a log timestamp token: the exact rational value the
decimal literal denotes (`"12.940318"`, `"13."`, `".5"`, `"7"`). -/
def pyFloat (s : String) : Option ℚ :=
  (floatParts s).map (fun p => (p.1 : ℚ) + (p.2.1 : ℚ) / (10 : ℚ) ^ p.2.2)

/-- Python `int()` applied to a number: truncation toward zero. -/
def pyInt (q : ℚ) : ℤ := if 0 ≤ q then ⌊q⌋ else -⌊-q⌋

/-! Module-level constants of `driving_info_speed.py`. -/

def EV : Bool := false

def PHEV : Bool := false

def HEV : Bool := false

def STANDARD : Bool := true

def KM : ℕ := 0

def MI : ℕ := 1

def KPH_TO_MPH : ℚ := 1.609

def TIME_MULT : ℚ := 0.641

def ENG_MSG_STD : ℕ := 0x000

def ENG_MSG_EV : ℕ := 0x000

def SPD_MSG_1 : ℕ := 0x000

/-- The mutable context dictionary threaded through `parse_file` /
`process_frame` / `speed_events_logic`.  Field `onv` stands for the key
`'on'` written by the EV branch of `process_frame` (`on` is a reserved
token in Lean). -/
structure Context where
  old_time : ℚ
  trips : ℕ
  engine : Bool
  time_speed : List (List (ℚ × ℚ))
  time : ℤ
  speed : ℚ
  speed_unit : ℚ
  rpm : ℚ
  ign : ℚ
  onv : ℚ
deriving DecidableEq, Repr

/-- `engine_status(context)`: returns `True` in every branch of the source
(EV / PHEV / HEV / STANDARD / fallback). -/
def engine_status (_ctx : Context) : Bool :=
  if EV then true
  else if PHEV then true
  else if HEV then true
  else if STANDARD then true
  else true

/-- Reference stub: `get_speed_signal_a(frame)` returns `0`. -/
def get_speed_signal_a (_frame : List String) : ℚ := 0

/-- Reference stub: `get_speed_signal_b(frame)` returns `0`. -/
def get_speed_signal_b (_frame : List String) : ℚ := 0

/-- Reference stub: `get_engine_signal_a(frame)` returns `0`. -/
def get_engine_signal_a (_frame : List String) : ℚ := 0

/-- Reference stub: `get_engine_signal_b(frame)` returns `0`. -/
def get_engine_signal_b (_frame : List String) : ℚ := 0

/-- Reference stub: `get_engine_ev_a(frame)` returns `0`.  (The EV branch of
`process_frame` calls a name `get_engine_signal_EV_a` that the source file
never defines — reaching that branch would raise `NameError`; it is
unreachable because every id equal to `ENG_MSG_EV` is already caught by the
`SPD_MSG_1` test.  The branch is modelled with this stub.) -/
def get_engine_ev_a (_frame : List String) : ℚ := 0

/-- `get_frame(line)`: `line[6 : int(line[5]) + 6]`.  Accessing `line[5]` on
a shorter list raises (`none`), `int` on a non-decimal token raises (`none`);
the slice itself is Python list slicing, which clamps silently:
`drop 6` then `take n`. -/
def get_frame (line : List String) : Option (List String) :=
  (line.get? 5).bind (fun tok => (pyNat tok).map (fun n => (line.drop 6).take n))

/-- `get_offset_ms(split)`: `int(float(split[0]) * 1000)`. -/
def get_offset_ms (split : List String) : Option ℤ :=
  ((split.get? 0).bind pyFloat).map (fun q => pyInt (q * 1000))

/-- In-place mutation of the `i`-th element of a list
(`l[i].append(x)` is `modifyAt (· ++ [x]) i l`).  An out-of-range index
leaves the list unchanged; in every reachable state the index `trips` is in
range, so this never differs from Python's behaviour. -/
def modifyAt (f : α → α) : ℕ → List α → List α
  | _, [] => []
  | 0, a :: as => f a :: as
  | n + 1, a :: as => a :: modifyAt f n as

/-- `speed_events_logic(id, context)`: the trip-segmentation business logic.
Speed events append `(time - old_time, speed)` to the current trip while the
engine is on; engine events (std or EV) toggle the engine flag edge-wise and
open a new trip on an on→off edge. -/
def speed_events_logic (id : ℕ) (ctx : Context) : Context :=
  if id = SPD_MSG_1 then
    if ctx.engine = false then ctx
    else
      { ctx with
        time_speed :=
          modifyAt (fun tr => tr ++ [((ctx.time : ℚ) - ctx.old_time, ctx.speed)])
            ctx.trips ctx.time_speed,
        old_time := (ctx.time : ℚ) }
  else if id = ENG_MSG_STD then
    let engine := engine_status ctx
    if engine = false ∧ ctx.engine = true then
      { ctx with trips := ctx.trips + 1, time_speed := ctx.time_speed ++ [[]],
                 engine := false }
    else if engine = true ∧ ctx.engine = false then
      { ctx with engine := true }
    else ctx
  else if id = ENG_MSG_EV then
    let engine := engine_status ctx
    if engine = false ∧ ctx.engine = true then
      { ctx with trips := ctx.trips + 1, time_speed := ctx.time_speed ++ [[]],
                 engine := false }
    else if engine = true ∧ ctx.engine = false then
      { ctx with engine := true }
    else ctx
  else ctx

/-- `process_frame(id, frame, func, context)`: classifies the frame id and
updates the scratch fields before invoking the business-logic callback;
unrecognized ids are dropped silently. -/
def process_frame (id : ℕ) (frame : List String) (func : ℕ → Context → Context)
    (ctx : Context) : Context :=
  if id = SPD_MSG_1 then
    func id { ctx with speed := get_speed_signal_a frame,
                       speed_unit := get_speed_signal_b frame }
  else if id = ENG_MSG_STD then
    func id { ctx with rpm := get_engine_signal_a frame,
                       ign := get_engine_signal_b frame }
  else if id = ENG_MSG_EV then
    func id { ctx with onv := get_engine_ev_a frame }
  else ctx

/-- One iteration of the `for line in file` body of `parse_file` past the
header: set `context['time']`, parse the id (`int(split[2], 16)`), extract
the frame, dispatch; `none` where the iteration raises. -/
def processLine (ctx : Context) (split : List String) : Option Context :=
  (get_offset_ms split).bind (fun t =>
    ((split.get? 2).bind pyHex).bind (fun id =>
      (get_frame split).map (fun frame =>
        process_frame id frame speed_events_logic { ctx with time := t })))

/-- The data-line loop of `parse_file`: thread the context through the lines,
aborting on the first raised exception. -/
def run (ctx : Context) : List (List String) → Option Context
  | [] => some ctx
  | l :: ls =>
    match processLine ctx l with
    | none => none
    | some ctx' => run ctx' ls

/-- The context dictionary `parse_file` builds before its loop (`engine` is
immediately overwritten with `engine_status(context)`). -/
def context0 : Context :=
  { old_time := 0, trips := 0, engine := false, time_speed := [[]],
    time := 0, speed := 0, speed_unit := 0, rpm := 0, ign := 0, onv := 0 }

/-- The initial context of a parse pass. -/
def initContext : Context := { context0 with engine := engine_status context0 }

/-- `parse_file`: skip the three header lines, run the loop, return
`context['time_speed']` (or raise, `none`). -/
def parse_file (lines : List (List String)) : Option (List (List (ℚ × ℚ))) :=
  (run initContext (lines.drop 3)).map (fun c => c.time_speed)

/-- The data-line loop instrumented with a count of the engine ON→OFF edges
it performs (steps whose context goes from `engine = true` to
`engine = false`). -/
def runEdges (ctx : Context) : List (List String) → Option (Context × ℕ)
  | [] => some (ctx, 0)
  | l :: ls =>
    match processLine ctx l with
    | none => none
    | some ctx' =>
      match runEdges ctx' ls with
      | none => none
      | some (c, n) =>
        some (c, (if ctx.engine = true ∧ ctx'.engine = false then 1 else 0) + n)

/-- Sum of the `deltaMs` components of a trip's samples. -/
def sumDeltas (trip : List (ℚ × ℚ)) : ℚ := (trip.map (fun p => p.1)).sum

/-! Model of `CANoe.start_Measurement` (src/Python_CANoe.py).

The environment is abstracted as `running : ℕ → Bool`, where `running k` is
the value the `self.application.Measurement.Running` check reads after `k`
`Start()` calls have been issued.  The loop
`while not Running and retry < retry_counter: Start(); sleep(1); retry += 1`
is `smGo` with `remaining = retry_counter - retry` as the structural fuel
(so `remaining = 0` is exactly the exit condition `retry < retry_counter`
failing); afterwards the code raises iff `retry == retry_counter`. -/

def retry_counter : ℕ := 5

/-- The retry loop of `start_Measurement`; returns the final `retry` value. -/
def smGo (running : ℕ → Bool) : ℕ → ℕ → ℕ
  | retry, 0 => retry
  | retry, rem + 1 =>
    if running retry = false then smGo running (retry + 1) rem else retry

/-- Final value of `retry` when `start_Measurement` reaches its `if`. -/
def start_Measurement_final_retry (running : ℕ → Bool) : ℕ :=
  smGo running 0 retry_counter

/-- Whether `start_Measurement` raises its `RuntimeWarning`
(`retry == retry_counter` after the loop). -/
def start_Measurement_raises (running : ℕ → Bool) : Bool :=
  decide (start_Measurement_final_retry running = retry_counter)

/-- Environment in which the measurement becomes running only after the
fifth `Start()` call: the checks before each of the five attempts read
`False`, the state after the fifth attempt is `True`. -/
def lateStart (n : ℕ) : Bool := decide (5 ≤ n)

/-! Model of `ParseThread.read_speed` (the sampling consumer).

The sequence of `self.shared.get_speed()` values the consumer reads, one per
polling iteration, is abstracted as the input list; `read_speed_diffs`
records, for each iteration, the pair of speed differences the iteration
passes to `process_accel_mph` and `process_accel_kph` respectively
(`speed - old_speed` and `speed / 1.609 - old_speed / 1.609`), threading
`old_speed` exactly as the loop does (initially `0.0`). -/

def read_speed_diffs (old_speed : ℚ) : List ℚ → List (ℚ × ℚ)
  | [] => []
  | s :: rest =>
    (s - old_speed, s / 1.609 - old_speed / 1.609) :: read_speed_diffs s rest

/-- The per-iteration `(mph diff, kph diff)` argument pairs of a
`read_speed` run whose successive speed readings are `samples`. -/
def read_speed_args (samples : List ℚ) : List (ℚ × ℚ) :=
  read_speed_diffs 0 samples

/-! Concrete demonstration input: three header lines followed by the two
speed-class data lines of the specification's scenario (timestamps
`12.940318` and `13.140300`, id token `000`, declared length 6). -/

def demoLine1 : List String :=
  ["12.940318", "1", "000", "Tx", "d", "6", "00", "00", "00", "00", "00", "00"]

def demoLine2 : List String :=
  ["13.140300", "1", "000", "Tx", "d", "6", "01", "00", "00", "00", "00", "00"]

def demoLines : List (List String) := [["h1"], ["h2"], ["h3"], demoLine1, demoLine2]

/-- Context state after the first demo data line. -/
def demoCtx1 : Context :=
  { old_time := 12940, trips := 0, engine := true, time_speed := [[(12940, 0)]],
    time := 12940, speed := 0, speed_unit := 0, rpm := 0, ign := 0, onv := 0 }

/-- Context state after both demo data lines. -/
def demoCtxFinal : Context :=
  { old_time := 13140, trips := 0, engine := true,
    time_speed := [[(12940, 0), (200, 0)]],
    time := 13140, speed := 0, speed_unit := 0, rpm := 0, ign := 0, onv := 0 }

/-- A data line declaring a 6-byte payload with only 3 payload tokens
present. -/
def truncLine : List String := ["12.9", "1", "0", "Tx", "d", "6", "00", "00", "00"]

/-! Helper lemmas. -/

theorem modifyAt_length (f : α → α) (i : ℕ) (l : List α) :
    (modifyAt f i l).length = l.length := by
  induction l generalizing i with
  | nil => cases i <;> rfl
  | cons a as ih => cases i with
    | zero => rfl
    | succ n => simpa [modifyAt] using ih n

theorem sumDeltas_append (t : List (ℚ × ℚ)) (p : ℚ × ℚ) :
    sumDeltas (t ++ [p]) = sumDeltas t + p.1 := by
  simp [sumDeltas]

theorem read_speed_diffs_ratio (samples : List ℚ) :
    ∀ (old : ℚ) (p : ℚ × ℚ), p ∈ read_speed_diffs old samples →
      p.2 = p.1 / 1.609 := by
  induction samples with
  | nil => intro old p hp; cases hp
  | cons s rest ih =>
    intro old p hp
    rcases List.mem_cons.mp hp with hhead | htail
    · subst hhead
      exact div_sub_div_same s old (1.609 : ℚ)
    · exact ih s p htail

/-- Characterization of one successful loop iteration: `trips` and `engine`
are never changed, and either the accumulated state is untouched (engine-off
speed event or unrecognized id) or one sample
`(time - old_time, 0)` is appended to the trip at index `trips` and
`old_time` becomes `time`. -/
theorem processLine_char (ctx : Context) (l : List String) (c : Context)
    (h : processLine ctx l = some c) :
    c.trips = ctx.trips ∧ c.engine = ctx.engine ∧
      ((c.time_speed = ctx.time_speed ∧ c.old_time = ctx.old_time) ∨
       (ctx.engine = true ∧
        c.time_speed =
          modifyAt (fun tr => tr ++ [((c.time : ℚ) - ctx.old_time, 0)])
            ctx.trips ctx.time_speed ∧
        c.old_time = (c.time : ℚ))) := by
  simp only [processLine, Option.bind_eq_some, Option.map_eq_some'] at h
  obtain ⟨t, -, id, -, frame, -, hc⟩ := h
  subst hc
  by_cases hid : id = 0
  · subst hid
    by_cases hb0 : ctx.engine = true
    case neg =>
      have hb : ctx.engine = false := by simpa using hb0
      have hred : process_frame 0 frame speed_events_logic { ctx with time := t } =
          { ctx with
            time := t
            speed := 0
            speed_unit := 0 } := by
        simp [process_frame, speed_events_logic, SPD_MSG_1, hb,
          get_speed_signal_a, get_speed_signal_b]
      rw [hred]
      exact ⟨rfl, rfl, Or.inl ⟨rfl, rfl⟩⟩
    case pos =>
      have hb : ctx.engine = true := hb0
      have hred : process_frame 0 frame speed_events_logic { ctx with time := t } =
          { ctx with
            time := t
            speed := 0
            speed_unit := 0
            time_speed :=
              modifyAt (fun tr => tr ++ [((t : ℚ) - ctx.old_time, 0)])
                ctx.trips ctx.time_speed
            old_time := (t : ℚ) } := by
        simp [process_frame, speed_events_logic, SPD_MSG_1, hb,
          get_speed_signal_a, get_speed_signal_b]
      rw [hred]
      exact ⟨rfl, rfl, Or.inr ⟨hb, rfl, rfl⟩⟩
  · have hred : process_frame id frame speed_events_logic { ctx with time := t } =
        { ctx with time := t } := by
      simp [process_frame, SPD_MSG_1, ENG_MSG_STD, ENG_MSG_EV, hid]
    rw [hred]
    exact ⟨rfl, rfl, Or.inl ⟨rfl, rfl⟩⟩

/-- A successful loop iteration preserves `engine`, `trips` and the number of
trips in `time_speed`. -/
theorem processLine_pres (ctx : Context) (l : List String) (c : Context)
    (h : processLine ctx l = some c) :
    c.engine = ctx.engine ∧ c.trips = ctx.trips ∧
      c.time_speed.length = ctx.time_speed.length := by
  obtain ⟨h1, h2, h3⟩ := processLine_char ctx l c h
  refine ⟨h2, h1, ?_⟩
  rcases h3 with ⟨hts, _⟩ | ⟨_, hts, _⟩
  · rw [hts]
  · rw [hts, modifyAt_length]

/-- A successful run of the data-line loop preserves `engine`, `trips` and
the number of trips. -/
theorem run_pres (ls : List (List String)) :
    ∀ ctx c : Context, run ctx ls = some c →
      c.engine = ctx.engine ∧ c.trips = ctx.trips ∧
        c.time_speed.length = ctx.time_speed.length := by
  induction ls with
  | nil =>
    intro ctx c h
    simp only [run, Option.some.injEq] at h
    subst h
    exact ⟨rfl, rfl, rfl⟩
  | cons l ls ih =>
    intro ctx c h
    simp only [run] at h
    cases hpl : processLine ctx l with
    | none => rw [hpl] at h; cases h
    | some ctx' =>
      rw [hpl] at h
      obtain ⟨e1, t1, l1⟩ := processLine_pres ctx l ctx' hpl
      obtain ⟨e2, t2, l2⟩ := ih ctx' c h
      exact ⟨e2.trans e1, t2.trans t1, l2.trans l1⟩

/-- The instrumented loop agrees with the plain loop and, because no
iteration ever changes `engine`, counts zero ON→OFF edges. -/
theorem runEdges_eq_run (ls : List (List String)) :
    ∀ ctx : Context, runEdges ctx ls = (run ctx ls).map (fun c => (c, 0)) := by
  induction ls with
  | nil => intro ctx; rfl
  | cons l ls ih =>
    intro ctx
    cases hpl : processLine ctx l with
    | none => simp only [runEdges, run, hpl]; rfl
    | some ctx' =>
      obtain ⟨heng, -, -⟩ := processLine_pres ctx l ctx' hpl
      simp only [runEdges, run, hpl, ih ctx']
      cases hrun : run ctx' ls with
      | none => rfl
      | some c =>
        simp only [Option.map_some', heng]
        have hz : (if ctx.engine = true ∧ ctx.engine = false then 1 else 0) = 0 := by
          rcases Bool.eq_false_or_eq_true ctx.engine with hb | hb <;> simp [hb]
        rw [hz]

/-- Sum-of-deltas invariant: as long as `time_speed` is a single trip and
`trips = 0`, the quantity `sumDeltas trip - old_time` is preserved by the
loop. -/
theorem run_sum (ls : List (List String)) :
    ∀ (ctx c : Context) (t0 : List (ℚ × ℚ)),
      run ctx ls = some c → ctx.trips = 0 → ctx.time_speed = [t0] →
      c.trips = 0 ∧ ∃ t1, c.time_speed = [t1] ∧
        sumDeltas t1 - c.old_time = sumDeltas t0 - ctx.old_time := by
  induction ls with
  | nil =>
    intro ctx c t0 h h0 hts
    simp only [run, Option.some.injEq] at h
    subst h
    exact ⟨h0, t0, hts, rfl⟩
  | cons l ls ih =>
    intro ctx c t0 h h0 hts
    simp only [run] at h
    cases hpl : processLine ctx l with
    | none => rw [hpl] at h; cases h
    | some ctx' =>
      rw [hpl] at h
      obtain ⟨htr, -, hcase⟩ := processLine_char ctx l ctx' hpl
      rcases hcase with ⟨hts', hot⟩ | ⟨-, hts', hot⟩
      · obtain ⟨c0, t1, hct, hsum⟩ := ih ctx' c t0 h (htr.trans h0) (hts'.trans hts)
        exact ⟨c0, t1, hct, by rw [hsum, hot]⟩
      · rw [h0] at hts'
        rw [hts] at hts'
        have hts'' : ctx'.time_speed = [t0 ++ [((ctx'.time : ℚ) - ctx.old_time, 0)]] := by
          rw [hts']; rfl
        obtain ⟨c0, t1, hct, hsum⟩ :=
          ih ctx' c (t0 ++ [((ctx'.time : ℚ) - ctx.old_time, 0)]) h (htr.trans h0) hts''
        refine ⟨c0, t1, hct, ?_⟩
        rw [hsum, sumDeltas_append, hot]
        show sumDeltas t0 + ((ctx'.time : ℚ) - ctx.old_time) - (ctx'.time : ℚ) =
          sumDeltas t0 - ctx.old_time
        ring

/-! Concrete evaluations on the demonstration input. -/

theorem pyFloat_demo1 : pyFloat "12.940318" = some ((12 : ℚ) + 940318 / 10 ^ 6) := by
  rw [pyFloat, show floatParts "12.940318" = some (12, 940318, 6) from by decide]
  rfl

theorem pyFloat_demo2 : pyFloat "13.140300" = some ((13 : ℚ) + 140300 / 10 ^ 6) := by
  rw [pyFloat, show floatParts "13.140300" = some (13, 140300, 6) from by decide]
  rfl

theorem offset_demo1 : get_offset_ms demoLine1 = some 12940 := by
  simp only [get_offset_ms, demoLine1, List.get?, pyFloat_demo1, Option.some_bind,
    Option.map_some']
  norm_num [pyInt]

theorem offset_demo2 : get_offset_ms demoLine2 = some 13140 := by
  simp only [get_offset_ms, demoLine2, List.get?, pyFloat_demo2, Option.some_bind,
    Option.map_some']
  norm_num [pyInt]

theorem processLine_demo1 : processLine initContext demoLine1 = some demoCtx1 := by
  simp only [processLine, demoLine1, List.get?,
    show pyHex "000" = some 0 from by decide, get_frame,
    show pyNat "6" = some 6 from by decide, Option.map_some', Option.some_bind,
    List.drop, List.take,
    process_frame, speed_events_logic, SPD_MSG_1, ENG_MSG_STD, ENG_MSG_EV,
    engine_status, EV, PHEV, HEV, STANDARD, initContext, context0,
    get_speed_signal_a, get_speed_signal_b, modifyAt, demoCtx1]
  rw [show get_offset_ms
      ["12.940318", "1", "000", "Tx", "d", "6", "00", "00", "00", "00", "00", "00"] =
      some 12940 from offset_demo1]
  simp only [Option.some_bind, Option.some.injEq]
  norm_num [Context.mk.injEq]

theorem processLine_demo2 : processLine demoCtx1 demoLine2 = some demoCtxFinal := by
  simp only [processLine, demoLine2, List.get?,
    show pyHex "000" = some 0 from by decide, get_frame,
    show pyNat "6" = some 6 from by decide, Option.map_some', Option.some_bind,
    List.drop, List.take,
    process_frame, speed_events_logic, SPD_MSG_1, ENG_MSG_STD, ENG_MSG_EV,
    engine_status, EV, PHEV, HEV, STANDARD, demoCtx1,
    get_speed_signal_a, get_speed_signal_b, modifyAt, demoCtxFinal]
  rw [show get_offset_ms
      ["13.140300", "1", "000", "Tx", "d", "6", "01", "00", "00", "00", "00", "00"] =
      some 13140 from offset_demo2]
  simp only [Option.some_bind, Option.some.injEq]
  norm_num [Context.mk.injEq]

theorem run_demo : run initContext [demoLine1, demoLine2] = some demoCtxFinal := by
  simp only [run, processLine_demo1, processLine_demo2]

theorem parse_demo : parse_file demoLines = some [[(12940, 0), (200, 0)]] := by
  have hdrop : demoLines.drop 3 = [demoLine1, demoLine2] := rfl
  rw [parse_file, hdrop, run_demo]
  rfl

theorem runEdges_demo :
    runEdges initContext (demoLines.drop 3) = some (demoCtxFinal, 0) := by
  have hdrop : demoLines.drop 3 = [demoLine1, demoLine2] := rfl
  rw [hdrop, runEdges_eq_run, run_demo]
  rfl

/-! Claim theorems. -/

/-- Claim C1: for every input parsed by `parse_file`, the number of trips in
the returned list equals 1 plus the number of ON→OFF engine edges observed
during the parse (the trip list starts with one open trip; each
engine-on-to-engine-off transition, and nothing else, appends one new empty
trip). -/
theorem C1_trip_count_eq_one_plus_edges (lines : List (List String))
    (ts : List (List (ℚ × ℚ))) (ctxF : Context) (n : ℕ)
    (hp : parse_file lines = some ts)
    (he : runEdges initContext (lines.drop 3) = some (ctxF, n)) :
    ts.length = 1 + n := by
  rw [runEdges_eq_run, Option.map_eq_some'] at he
  obtain ⟨c, hrun, hpair⟩ := he
  have hn : (0 : ℕ) = n := congrArg Prod.snd hpair
  rw [parse_file, hrun, Option.map_some', Option.some.injEq] at hp
  obtain ⟨-, -, hlen⟩ := run_pres (lines.drop 3) initContext c hrun
  rw [← hp, hlen, ← hn]
  rfl

/-- Witness for C1 on the demonstration input: two speed lines, no engine
edges, one trip. -/
theorem C1_trip_count_witness :
    parse_file demoLines = some [[(12940, 0), (200, 0)]] ∧
    runEdges initContext (demoLines.drop 3) = some (demoCtxFinal, 0) ∧
    ([[((12940 : ℚ), (0 : ℚ)), (200, 0)]] : List (List (ℚ × ℚ))).length = 1 + 0 :=
  ⟨parse_demo, runEdges_demo,
    C1_trip_count_eq_one_plus_edges demoLines [[(12940, 0), (200, 0)]] demoCtxFinal 0
      parse_demo runEdges_demo⟩

/-- Claim C2 counterexample: on the scenario input (3 headers, speed-class
lines at 12.940318 s and 13.140300 s) the parse does not return
`[[(0, 0.0), (200, 1.0)]]`: the first delta is 12940 ms (old_time starts at
0) and the reference decoder yields speed 0 for both frames. -/
theorem C2_scenario_counterexample :
    parse_file demoLines = some [[(12940, 0), (200, 0)]] ∧
    parse_file demoLines ≠ some [[(0, 0), (200, 1)]] := by
  refine ⟨parse_demo, ?_⟩
  rw [parse_demo]
  simp only [ne_eq, Option.some.injEq, List.cons.injEq, Prod.mk.injEq, and_true,
    List.cons_ne_nil, not_and, and_imp]
  intro h
  norm_num at h

/-- Claim C2 amended: the scenario yields `[[(12940, 0), (200, 0)]]` — one
trip whose first sample has delta 12940 ms (the full first timestamp, since
`old_time` starts at 0), whose second sample has delta 200 ms, and whose
speeds are both 0 (the reference speed decoder is a stub returning 0). -/
theorem C2_scenario_amended :
    parse_file demoLines = some [[(12940, 0), (200, 0)]] :=
  parse_demo

/-- Claim C3 counterexample: for the demonstration trip the sum of deltas is
12940 + 200 = 13140, while the last underlying speed event timestamp minus
the first is 13140 − 12940 = 200. -/
theorem C3_delta_sum_counterexample :
    get_offset_ms demoLine1 = some 12940 ∧
    get_offset_ms demoLine2 = some 13140 ∧
    parse_file demoLines = some [[(12940, 0), (200, 0)]] ∧
    sumDeltas [(12940, 0), (200, 0)] ≠ (13140 : ℚ) - 12940 := by
  refine ⟨offset_demo1, offset_demo2, parse_demo, ?_⟩
  norm_num [sumDeltas]

/-- Claim C3 amended: for every trip produced by a parse pass, the sum of
the `deltaMs` values equals the final `old_time` (the timestamp of the
trip's last underlying speed event) minus the `old_time` in effect when the
parse started — the baseline is the previous speed event (0 at parse start),
not the trip's own first event. -/
theorem C3_delta_sum_amended (lines : List (List String))
    (ts : List (List (ℚ × ℚ))) (ctxF : Context)
    (hp : parse_file lines = some ts)
    (hr : run initContext (lines.drop 3) = some ctxF) :
    ∀ trip ∈ ts, sumDeltas trip = ctxF.old_time - initContext.old_time := by
  rw [parse_file, hr, Option.map_some', Option.some.injEq] at hp
  subst hp
  obtain ⟨c0, t1, hct, hsum⟩ := run_sum (lines.drop 3) initContext ctxF [] hr rfl rfl
  intro trip htrip
  rw [hct, List.mem_singleton] at htrip
  rw [htrip]
  have h0 : initContext.old_time = 0 := rfl
  rw [h0]
  have hsum' : sumDeltas t1 - ctxF.old_time = 0 := by
    rw [hsum]
    norm_num [sumDeltas, h0]
  linarith

/-- Witness for the amended C3 on the demonstration input. -/
theorem C3_delta_sum_amended_witness :
    parse_file demoLines = some [[(12940, 0), (200, 0)]] ∧
    run initContext (demoLines.drop 3) = some demoCtxFinal ∧
    sumDeltas [(12940, 0), (200, 0)] = demoCtxFinal.old_time - initContext.old_time := by
  have hr : run initContext (demoLines.drop 3) = some demoCtxFinal := run_demo
  refine ⟨parse_demo, hr, ?_⟩
  exact C3_delta_sum_amended demoLines [[(12940, 0), (200, 0)]] demoCtxFinal
    parse_demo hr [(12940, 0), (200, 0)] (List.mem_singleton.mpr rfl)

/-- Claim C4: all three message-class identifiers equal `0x000` and
`process_frame` tests the speed class first, so every recognized frame is
dispatched as a speed event (the standard-engine and EV-engine branches are
unreachable), the engine state is never toggled by a loop iteration, and
`parse_file` returns a trip list of length exactly 1 for every input it
parses. -/
theorem C4_degenerate_dispatch :
    (ENG_MSG_STD = SPD_MSG_1 ∧ ENG_MSG_EV = SPD_MSG_1) ∧
    (∀ (id : ℕ) (frame : List String) (func : ℕ → Context → Context) (ctx : Context),
      id = SPD_MSG_1 ∨ id = ENG_MSG_STD ∨ id = ENG_MSG_EV →
      process_frame id frame func ctx =
        func SPD_MSG_1 { ctx with speed := get_speed_signal_a frame,
                                  speed_unit := get_speed_signal_b frame }) ∧
    (∀ (ctx : Context) (l : List String) (c : Context),
      processLine ctx l = some c → c.engine = ctx.engine) ∧
    (∀ (lines : List (List String)) (ts : List (List (ℚ × ℚ))),
      parse_file lines = some ts → ts.length = 1) := by
  refine ⟨⟨rfl, rfl⟩, ?_, ?_, ?_⟩
  · intro id frame func ctx hid
    have h0 : id = 0 := by
      rcases hid with h | h | h <;> exact h
    subst h0
    rfl
  · intro ctx l c h
    exact (processLine_pres ctx l c h).1
  · intro lines ts hp
    cases hrun : run initContext (lines.drop 3) with
    | none => rw [parse_file, hrun] at hp; cases hp
    | some c =>
      rw [parse_file, hrun, Option.map_some', Option.some.injEq] at hp
      subst hp
      obtain ⟨-, -, hlen⟩ := run_pres (lines.drop 3) initContext c hrun
      rw [hlen]
      rfl

/-- Witness for C4: dispatching an engine-class id runs the speed branch,
a concrete iteration preserves the engine flag, and the demonstration parse
returns exactly one trip. -/
theorem C4_degenerate_dispatch_witness :
    process_frame ENG_MSG_STD ["00"] speed_events_logic context0 =
      speed_events_logic SPD_MSG_1
        { context0 with speed := get_speed_signal_a ["00"],
                        speed_unit := get_speed_signal_b ["00"] } ∧
    demoCtx1.engine = initContext.engine ∧
    ([[((12940 : ℚ), (0 : ℚ)), (200, 0)]] : List (List (ℚ × ℚ))).length = 1 :=
  ⟨C4_degenerate_dispatch.2.1 ENG_MSG_STD ["00"] speed_events_logic context0
      (Or.inr (Or.inl rfl)),
   C4_degenerate_dispatch.2.2.1 initContext demoLine1 demoCtx1 processLine_demo1,
   C4_degenerate_dispatch.2.2.2 demoLines [[(12940, 0), (200, 0)]] parse_demo⟩

/-- Claim C5 counterexample: a line declaring 6 payload bytes with only 3
tokens after index 5 does not fail — `get_frame` silently returns the 3
available tokens. -/
theorem C5_frame_truncation_counterexample :
    get_frame truncLine = some ["00", "00", "00"] ∧
    (["00", "00", "00"] : List String).length < 6 := by
  constructor
  · decide
  · decide

/-- Claim C5 amended: `get_frame` never fails on a short payload — it
returns the declared-length slice clamped to the tokens actually present,
so when the declared length exceeds the remaining tokens the payload is
silently shorter (`min declaredLength (tokens − 6)` entries), with no
`FrameTruncated` error. -/
theorem C5_frame_truncation_amended (line : List String) (tok : String) (n : ℕ)
    (htok : line.get? 5 = some tok) (hn : pyNat tok = some n) :
    get_frame line = some ((line.drop 6).take n) ∧
    ((line.drop 6).take n).length = min n (line.length - 6) := by
  constructor
  · rw [get_frame, htok, Option.some_bind, hn, Option.map_some']
  · rw [List.length_take, List.length_drop]

/-- Witness for the amended C5 at the truncated demonstration line. -/
theorem C5_frame_truncation_amended_witness :
    truncLine.get? 5 = some "6" ∧ pyNat "6" = some 6 ∧
    (get_frame truncLine = some ((truncLine.drop 6).take 6) ∧
      ((truncLine.drop 6).take 6).length = min 6 (truncLine.length - 6)) :=
  ⟨by decide, by decide,
    C5_frame_truncation_amended truncLine "6" 6 (by decide) (by decide)⟩

/-- Claim C6: the integer-millisecond timestamp is obtained by truncating
(not rounding) the leading float-seconds token multiplied by 1000:
`get_offset_ms` returns the floor of `seconds * 1000` for every nonnegative
timestamp token. -/
theorem C6_offset_truncates (s : String) (rest : List String) (q : ℚ)
    (hs : pyFloat s = some q) (hq : 0 ≤ q) :
    get_offset_ms (s :: rest) = some ⌊q * 1000⌋ := by
  have hm : (0 : ℚ) ≤ q * 1000 := mul_nonneg hq (by norm_num)
  rw [get_offset_ms, List.get?, Option.some_bind, hs, Option.map_some', pyInt,
    if_pos hm]

/-- Witness for C6 at the token `"12.940318"`. -/
theorem C6_offset_truncates_witness :
    pyFloat "12.940318" = some ((12 : ℚ) + 940318 / 10 ^ 6) ∧
    (0 : ℚ) ≤ (12 : ℚ) + 940318 / 10 ^ 6 ∧
    get_offset_ms ["12.940318"] = some ⌊((12 : ℚ) + 940318 / 10 ^ 6) * 1000⌋ :=
  ⟨pyFloat_demo1, by norm_num,
    C6_offset_truncates "12.940318" [] ((12 : ℚ) + 940318 / 10 ^ 6) pyFloat_demo1
      (by norm_num)⟩

/-- Claim C7: a speed-class event processed while the engine flag is false is
dropped with no effect on the accumulated state: `speed_events_logic`
returns the context unchanged, and after the full `process_frame` dispatch
the trip list, the trip counter and `old_time` are unchanged. -/
theorem C7_engine_off_drops (frame : List String) (ctx : Context)
    (h : ctx.engine = false) :
    speed_events_logic SPD_MSG_1 ctx = ctx ∧
    (process_frame SPD_MSG_1 frame speed_events_logic ctx).time_speed =
      ctx.time_speed ∧
    (process_frame SPD_MSG_1 frame speed_events_logic ctx).old_time =
      ctx.old_time ∧
    (process_frame SPD_MSG_1 frame speed_events_logic ctx).trips = ctx.trips := by
  refine ⟨?_, ?_, ?_, ?_⟩ <;>
    simp [speed_events_logic, process_frame, SPD_MSG_1, h]

/-- Witness for C7 at the engine-off initial dictionary `context0`. -/
theorem C7_engine_off_drops_witness :
    context0.engine = false ∧
    (speed_events_logic SPD_MSG_1 context0 = context0 ∧
      (process_frame SPD_MSG_1 [] speed_events_logic context0).time_speed =
        context0.time_speed ∧
      (process_frame SPD_MSG_1 [] speed_events_logic context0).old_time =
        context0.old_time ∧
      (process_frame SPD_MSG_1 [] speed_events_logic context0).trips =
        context0.trips) :=
  ⟨rfl, C7_engine_off_drops [] context0 rfl⟩

/-- Claim C8 (code bug): in the environment `lateStart`, where the
measurement is not running at the five pre-attempt checks but is running
after the fifth `Start()` call, `start_Measurement` still raises its
"start measurement failed" `RuntimeWarning` — contradicting the claim that
the timeout is raised iff the measurement is still not running after the
five attempts. -/
theorem C8_retry_raises_despite_running :
    lateStart 0 = false ∧ lateStart 1 = false ∧ lateStart 2 = false ∧
    lateStart 3 = false ∧ lateStart 4 = false ∧ lateStart 5 = true ∧
    start_Measurement_raises lateStart = true := by
  decide

/-- Claim C10: in every consumer polling iteration of `read_speed`, the
value passed to `process_accel_kph` equals the value passed to
`process_accel_mph` divided by exactly 1.609. -/
theorem C10_kph_is_mph_div (samples : List ℚ) (p : ℚ × ℚ)
    (hp : p ∈ read_speed_args samples) : p.2 = p.1 / 1.609 :=
  read_speed_diffs_ratio samples 0 p hp

/-- Witness for C10 at a single 10-unit reading. -/
theorem C10_kph_is_mph_div_witness :
    ((10 : ℚ) - 0, (10 : ℚ) / 1.609 - 0 / 1.609) ∈ read_speed_args [10] ∧
    ((10 : ℚ) - 0, (10 : ℚ) / 1.609 - 0 / 1.609).2 =
      ((10 : ℚ) - 0, (10 : ℚ) / 1.609 - 0 / 1.609).1 / 1.609 :=
  ⟨List.mem_singleton.mpr rfl,
    C10_kph_is_mph_div [10] ((10 : ℚ) - 0, (10 : ℚ) / 1.609 - 0 / 1.609)
      (List.mem_singleton.mpr rfl)⟩
